import Mathlib

/-
Verification of the prompt-assembly and response-rendering pipeline of the
smaianalysis repository (src/main.py), a single Streamlit script.

The embedding models:
  - the credential-selection sidebar block (src/main.py lines 34-50);
  - the cached agent constructor initialize_agent (lines 61-82);
  - the prompt composer, i.e. DataFrame.to_markdown plus the f-string
    full_prompt (lines 144-145);
  - one script rerun: the upload block (lines 92-99) followed by the
    analyze-button handler (lines 133-167), with the external backend
    (agent.run) abstracted as a function from the prompt to either a
    response text or a raised exception message, and every user-visible
    effect (st.warning, st.error, st.markdown, st.download_button, st.stop)
    recorded in an explicit result record.
-/

/-- A table loaded from the spreadsheet: a header row plus data rows, every
cell already rendered to text.  Models the pandas DataFrame held in
st.session_state.df. -/
structure Table where
  headers : List String
  rows : List (List String)
deriving DecidableEq

/-- Pad a cell text on the right with spaces up to the column width, as the
tabular-text layout used by DataFrame.to_markdown does.  When the width is
not larger than the text, the text is kept whole: no truncation ever. -/
def padCell (w : Nat) (s : String) : String :=
  s ++ String.mk (List.replicate (w - s.length) ' ')

/-- Join a list of strings with a separator (the behaviour of
String.intercalate, re-stated for direct structural reasoning). -/
def joinSep (sep : String) : List String → String
  | [] => ""
  | [c] => c
  | c :: cs => c ++ sep ++ joinSep sep cs

/-- Width of column i of a table: the maximum of the header length and each
cell length in that column, as the conventional tabular layout computes. -/
def colWidth (t : Table) (i : Nat) : Nat :=
  (t.rows.map (fun r => (r.getD i "").length)).foldl Nat.max (t.headers.getD i "").length

/-- Column widths of the table, one per header. -/
def widths (t : Table) : List Nat :=
  (List.range t.headers.length).map (colWidth t)

/-- One rendered line of the pipe-table: cells padded to the column widths,
joined by pipes. -/
def renderRow (ws : List Nat) (cells : List String) : String :=
  "| " ++ joinSep " | " (List.zipWith padCell ws cells) ++ " |"

/-- The separator line under the header row (alignment colons of the pipe
format are abstracted to dashes; no claim depends on them). -/
def sepRow (ws : List Nat) : String :=
  "|" ++ joinSep "|" (ws.map (fun w => String.mk (List.replicate (w + 2) '-'))) ++ "|"

/-- df.to_markdown(index=False): the header row, the separator row and one
line per data row, joined by newlines.  No size limiting of any kind. -/
def to_markdown (t : Table) : String :=
  joinSep "\n"
    (renderRow (widths t) t.headers ::
      sepRow (widths t) :: t.rows.map (renderRow (widths t)))

/-- The composed prompt of src/main.py line 145: the fixed preamble label,
the markdown rendering of the table, the separating label, and the verbatim
question. -/
def full_prompt (t : Table) (q : String) : String :=
  "Social media data:\n" ++ to_markdown t ++ "\n\nUser question: " ++ q

/-- needle occurs verbatim (contiguously) inside hay. -/
def occursIn (needle hay : String) : Prop :=
  ∃ u v, hay = u ++ needle ++ v

/-- The two entries of the model-selection dropdown (line 27). -/
inductive ModelChoice
  | gemini
  | openaiGpt4o
deriving DecidableEq

/-- The credential-selection block of lines 34-50: the selected provider
gets the entered key, the other provider variable is set to None.  Returns
the pair (api_key, openai_api_key). -/
def select_credentials (choice : ModelChoice) (entered : String) :
    Option String × Option String :=
  match choice with
  | ModelChoice.gemini => (some entered, none)
  | ModelChoice.openaiGpt4o => (none, some entered)

/-- The backend model object handed to the Agent (lines 62-65). -/
inductive LlmModel
  | gemini (id : String) (api_key : Option String)
  | openAIChat (id : String) (api_key : Option String)
deriving DecidableEq

/-- The Agent record built by initialize_agent (lines 67-82). -/
structure Agent where
  name : String
  model : LlmModel
  description : String
  instructions : List String
  markdown : Bool
deriving DecidableEq

/-- initialize_agent of lines 61-82: picks the provider model from the
choice and the credentials, and attaches the fixed persona description and
the fixed instruction list. -/
def initialize_agent (choice : ModelChoice) (api_key openai_api_key : Option String) :
    Agent where
  name := "Social Media Analyzer"
  model :=
    match choice with
    | ModelChoice.gemini => LlmModel.gemini "gemini-2.0-flash" api_key
    | ModelChoice.openaiGpt4o => LlmModel.openAIChat "gpt-4o" openai_api_key
  description := "You are an expert Social Media Strategist AI. Your role is to analyze social media data provided from an Excel file and answer user questions with actionable insights and strategic recommendations."
  instructions := [
    "Carefully analyze the entire provided social media data.",
    "When answering the user\x27s question, refer specifically to the data columns and content.",
    "If engagement metrics (likes, comments, shares, views, etc.) are present, use them to support your analysis of top/bottom performing posts.",
    "Identify key content themes and topics apparent in the data.",
    "Infer the brand\x27s or individual\x27s positioning based on the analyzed content.",
    "Provide strategic insights: what\x27s working, what\x27s not, potential opportunities, or new content angles.",
    "Structure your response in clear, well-organized markdown. Use headings, bullet points, and bold text for emphasis.",
    "Base your analysis *primarily* on the provided Excel data."]
  markdown := true

/-- The exported docx of lines 153-155: one heading and the body
paragraphs. -/
structure Document where
  heading : String
  paragraphs : List String
deriving DecidableEq

/-- The download offered at lines 160-165. -/
structure Download where
  doc : Document
  file_name : String
  mime : String
deriving DecidableEq

/-- Every observable outcome of one script rerun: the session table after
the run, the question widget value after the run, whether st.stop halted
the script, the st.error and st.warning messages issued, the prompts sent
to the backend, the rendered analysis text, and the offered download. -/
structure RunResult where
  session : Option Table
  question : String
  stopped : Bool
  errors : List String
  warnings : List String
  backend_calls : List String
  displayed : Option String
  download : Option Download
deriving DecidableEq

/-- Python truthiness of an optional credential string: None and the empty
string are falsy. -/
def keyTruthy : Option String → Bool
  | none => false
  | some s => s != ""

/-- A rerun in which the button block produced no effect. -/
def idleResult (session : Option Table) (question : String) : RunResult where
  session := session
  question := question
  stopped := false
  errors := []
  warnings := []
  backend_calls := []
  displayed := none
  download := none

/-- A rerun whose button block issued a single st.warning and nothing
else. -/
def warnResult (session : Option Table) (question : String) (msg : String) : RunResult where
  session := session
  question := question
  stopped := false
  errors := []
  warnings := [msg]
  backend_calls := []
  displayed := none
  download := none

/-- The try block of lines 142-167: read st.session_state.df, compose the
prompt, call the backend; on success render the text and offer the fixed
download, on a raised exception issue the single st.error of line 167.
Reading a missing session key raises, which the same except clause
catches. -/
def analyze_action (session : Option Table) (question : String)
    (backend : String → Except String String) : RunResult :=
  match session with
  | none =>
    { idleResult session question with
      errors := ["An error occurred during analysis: st.session_state has no attribute df"] }
  | some df =>
    match backend (full_prompt df question) with
    | Except.error e =>
      { idleResult session question with
        errors := ["An error occurred during analysis: " ++ e]
        backend_calls := [full_prompt df question] }
    | Except.ok content =>
      { idleResult session question with
        backend_calls := [full_prompt df question]
        displayed := some content
        download := some
          { doc := { heading := "Social Media Data Analysis", paragraphs := [content] }
            file_name := "social_media_analysis.docx"
            mime := "application/vnd.openxmlformats-officedocument.wordprocessingml.document" } }

/-- The analyze-button handler of lines 133-145: the three guards, in the
order of the code, then the analysis action. -/
def button_block (uploaded : Option (Except String Table)) (session : Option Table)
    (question : String) (api_key openai_api_key : Option String)
    (backend : String → Except String String) : RunResult :=
  if uploaded.isNone then
    warnResult session question "Please upload an Excel file first."
  else if question = "" then
    warnResult session question "Please enter a question or prompt to analyze the data."
  else if !(keyTruthy api_key || keyTruthy openai_api_key) then
    warnResult session question "Please enter the API key for the selected model."
  else
    analyze_action session question backend

/-- One script rerun, lines 84-167.  The uploaded file is modelled by what
pd.read_excel would yield on it (a table, or a raised error message); the
upload block reads it only when no table is in the session yet (line 93),
reporting st.error plus st.stop on a parse failure; then the button block
runs when the button was pressed. -/
def script_run (uploaded : Option (Except String Table)) (session : Option Table)
    (question : String) (api_key openai_api_key : Option String)
    (button : Bool) (backend : String → Except String String) : RunResult :=
  match uploaded, session with
  | some (Except.error e), none =>
    { idleResult none question with
      stopped := true
      errors := ["Error reading Excel file: " ++ e] }
  | some (Except.ok t), none =>
    if button then button_block uploaded (some t) question api_key openai_api_key backend
    else idleResult (some t) question
  | _, _ =>
    if button then button_block uploaded session question api_key openai_api_key backend
    else idleResult session question

/-- A one-column table used as a concrete input. -/
def sampleTable : Table := Table.mk ["c"] [["1"]]

/-- A two-column table used as a concrete input. -/
def sampleTable2 : Table := Table.mk ["col1", "col2"] [["1", "2"]]

/-- A backend stub that raises on every prompt. -/
def raisingStub : String → Except String String := fun _ => Except.error "boom"

/-- A backend stub returning a fixed text on every prompt. -/
def fixedStub (t : String) : String → Except String String := fun _ => Except.ok t

/-- The table of the first upload in the replacement scenario. -/
def firstTable : Table := Table.mk ["colA"] [["1"]]

/-- The table of the second upload in the replacement scenario. -/
def secondTable : Table := Table.mk ["colB"] [["2"]]

/-- Every string occurs in itself. -/
theorem occursIn_self (a : String) : occursIn a a :=
  ⟨"", "", by simp⟩

/-- Occurrence is stable under appending on the right. -/
theorem occursIn_append_left (n a b : String) (h : occursIn n a) : occursIn n (a ++ b) := by
  obtain ⟨u, v, rfl⟩ := h
  exact ⟨u, v ++ b, by rw [String.append_assoc]⟩

/-- Occurrence is stable under appending on the left. -/
theorem occursIn_append_right (n a b : String) (h : occursIn n b) : occursIn n (a ++ b) := by
  obtain ⟨u, v, rfl⟩ := h
  exact ⟨a ++ u, v, by simp [String.append_assoc]⟩

/-- Occurrence is transitive. -/
theorem occursIn_trans (a b c : String) (hab : occursIn a b) (hbc : occursIn b c) :
    occursIn a c := by
  obtain ⟨u, v, rfl⟩ := hab
  obtain ⟨x, y, rfl⟩ := hbc
  exact ⟨x ++ u, v ++ y, by simp [String.append_assoc]⟩

/-- Each list element occurs in the joined string. -/
theorem occursIn_joinSep (sep : String) (l : List String) (x : String) (hx : x ∈ l) :
    occursIn x (joinSep sep l) := by
  induction l with
  | nil => cases hx
  | cons a t ih =>
    cases t with
    | nil =>
      cases hx with
      | head => exact occursIn_self _
      | tail _ h => cases h
    | cons b t2 =>
      have hj : joinSep sep (a :: b :: t2) = a ++ sep ++ joinSep sep (b :: t2) := rfl
      rw [hj]
      cases hx with
      | head =>
        exact occursIn_append_left _ _ _ (occursIn_append_left _ _ _ (occursIn_self _))
      | tail _ h =>
        exact occursIn_append_right _ _ _ (ih h)

/-- A cell occurs whole in its padded form, whatever the width. -/
theorem occursIn_padCell (w : Nat) (s : String) : occursIn s (padCell w s) :=
  ⟨"", String.mk (List.replicate (w - s.length) ' '), by simp [padCell]⟩

/-- A member of the cell list appears, padded, among the zipped padded
cells whenever there are at least as many widths as cells. -/
theorem padCell_mem_zipWith (x : String) (ws : List Nat) (hs : List String)
    (hx : x ∈ hs) (hlen : hs.length ≤ ws.length) :
    ∃ p ∈ List.zipWith padCell ws hs, occursIn x p := by
  induction hs generalizing ws with
  | nil => cases hx
  | cons a t ih =>
    cases ws with
    | nil => simp at hlen
    | cons w ws2 =>
      cases hx with
      | head =>
        refine ⟨padCell w x, ?_, occursIn_padCell w x⟩
        rw [List.zipWith_cons_cons]
        exact List.mem_cons_self _ _
      | tail _ h =>
        obtain ⟨p, hp, ho⟩ := ih ws2 h (by simp at hlen ⊢; omega)
        refine ⟨p, ?_, ho⟩
        rw [List.zipWith_cons_cons]
        exact List.mem_cons_of_mem _ hp

/-- Every cell occurs verbatim in the rendered table row, whenever there
are at least as many widths as cells. -/
theorem occursIn_renderRow (x : String) (ws : List Nat) (hs : List String)
    (hx : x ∈ hs) (hlen : hs.length ≤ ws.length) :
    occursIn x (renderRow ws hs) := by
  obtain ⟨p, hp, ho⟩ := padCell_mem_zipWith x ws hs hx hlen
  have h2 : occursIn x (joinSep " | " (List.zipWith padCell ws hs)) :=
    occursIn_trans _ _ _ ho (occursIn_joinSep _ _ _ hp)
  unfold renderRow
  exact occursIn_append_left _ _ _ (occursIn_append_right _ _ _ h2)

/-- Every column header occurs verbatim in the markdown rendering. -/
theorem occursIn_to_markdown_header (t : Table) (x : String) (hx : x ∈ t.headers) :
    occursIn x (to_markdown t) := by
  have hlen : t.headers.length ≤ (widths t).length := by simp [widths]
  have h1 := occursIn_renderRow x (widths t) t.headers hx hlen
  have h2 : occursIn (renderRow (widths t) t.headers) (to_markdown t) := by
    unfold to_markdown
    exact occursIn_joinSep _ _ _ (List.mem_cons_self _ _)
  exact occursIn_trans _ _ _ h1 h2

/-- The analysis action on a loaded table records exactly the composed
prompt as the single backend call, whatever the backend does. -/
theorem analyze_action_calls (df : Table) (q : String)
    (backend : String → Except String String) :
    (analyze_action (some df) q backend).backend_calls = [full_prompt df q] := by
  cases hb : backend (full_prompt df q) <;> simp [analyze_action, hb, idleResult]

/-- The analysis action never changes the stored table. -/
theorem analyze_action_session (df : Table) (q : String)
    (backend : String → Except String String) :
    (analyze_action (some df) q backend).session = some df := by
  cases hb : backend (full_prompt df q) <;> simp [analyze_action, hb, idleResult]

/-- The analysis action never issues a warning. -/
theorem analyze_action_warnings (df : Table) (q : String)
    (backend : String → Except String String) :
    (analyze_action (some df) q backend).warnings = [] := by
  cases hb : backend (full_prompt df q) <;> simp [analyze_action, hb, idleResult]

/-- Claim C3: for every table with at least two columns and every non-empty
question, the composed prompt is exactly the fixed preamble label, then the
markdown rendering of the table (header row included), then the separating
label and the verbatim question; every column header occurs verbatim in the
prompt, and the whole question is appended verbatim with no truncation. -/
theorem prompt_composition_exact (t : Table) (q : String)
    (h2 : 2 ≤ t.headers.length) (hq : q ≠ "") :
    full_prompt t q =
      "Social media data:\n" ++ to_markdown t ++ "\n\nUser question: " ++ q ∧
    (∀ h ∈ t.headers, occursIn h (full_prompt t q)) ∧
    (∃ u, full_prompt t q = u ++ q) := by
  refine ⟨rfl, ?_, ⟨"Social media data:\n" ++ to_markdown t ++ "\n\nUser question: ", rfl⟩⟩
  intro h hh
  have hm := occursIn_to_markdown_header t h hh
  exact occursIn_append_left _ _ _
    (occursIn_append_left _ _ _ (occursIn_append_right _ _ _ hm))

/-- Witness for C3 at a concrete two-column table and question. -/
theorem prompt_composition_exact_witness :
    2 ≤ sampleTable2.headers.length ∧ ("why?" : String) ≠ "" ∧
    (full_prompt sampleTable2 "why?" =
      "Social media data:\n" ++ to_markdown sampleTable2 ++ "\n\nUser question: " ++ "why?" ∧
    (∀ h ∈ sampleTable2.headers, occursIn h (full_prompt sampleTable2 "why?")) ∧
    (∃ u, full_prompt sampleTable2 "why?" = u ++ "why?")) :=
  ⟨by decide, by decide, prompt_composition_exact sampleTable2 "why?" (by decide) (by decide)⟩

/-- Claim C4: prompt composition is deterministic: composing from an
identical table and identical question yields identical prompt strings. -/
theorem full_prompt_deterministic (t1 t2 : Table) (q1 q2 : String)
    (ht : t1 = t2) (hq : q1 = q2) :
    full_prompt t1 q1 = full_prompt t2 q2 := by
  rw [ht, hq]

/-- Witness for C4 at a concrete table and question. -/
theorem full_prompt_deterministic_witness :
    sampleTable = sampleTable ∧ ("q" : String) = "q" ∧
    full_prompt sampleTable "q" = full_prompt sampleTable "q" :=
  ⟨rfl, rfl, full_prompt_deterministic sampleTable sampleTable "q" "q" rfl rfl⟩

/-- Claim C5: the credential variable of the non-selected provider is set
to None: selecting OpenAI leaves the Google credential None and selecting
Gemini leaves the OpenAI credential None, and the agent constructed from
the selection carries only the selected provider credential. -/
theorem nonselected_credential_cleared (entered : String) :
    (select_credentials ModelChoice.openaiGpt4o entered).1 = none ∧
    (select_credentials ModelChoice.gemini entered).2 = none ∧
    (initialize_agent ModelChoice.openaiGpt4o
        (select_credentials ModelChoice.openaiGpt4o entered).1
        (select_credentials ModelChoice.openaiGpt4o entered).2).model =
      LlmModel.openAIChat "gpt-4o" (some entered) ∧
    (initialize_agent ModelChoice.gemini
        (select_credentials ModelChoice.gemini entered).1
        (select_credentials ModelChoice.gemini entered).2).model =
      LlmModel.gemini "gemini-2.0-flash" (some entered) :=
  ⟨rfl, rfl, rfl, rfl⟩

/-- Claim C9: the persona description and the eight fixed instructions of
the agent are identical for both provider selections and any credentials,
and the instruction list has exactly eight entries. -/
theorem persona_instructions_static (c1 c2 : ModelChoice) (a1 b1 a2 b2 : Option String) :
    (initialize_agent c1 a1 b1).description = (initialize_agent c2 a2 b2).description ∧
    (initialize_agent c1 a1 b1).instructions = (initialize_agent c2 a2 b2).instructions ∧
    (initialize_agent c1 a1 b1).instructions.length = 8 :=
  ⟨rfl, rfl, rfl⟩

/-- Claim C2: for a loaded table, a non-empty question, a present
credential and a backend that raises, the rerun does not stop, issues
exactly the one st.error of line 167, makes the one attempted call, and
leaves the stored table and the question exactly as they were, with no
rendered result and no download. -/
theorem backend_error_atomic (f : Except String Table) (df : Table) (q : String)
    (ak oak : Option String) (backend : String → Except String String) (e : String)
    (hq : q ≠ "") (hkey : (keyTruthy ak || keyTruthy oak) = true)
    (hb : backend (full_prompt df q) = Except.error e) :
    script_run (some f) (some df) q ak oak true backend =
      { session := some df, question := q, stopped := false,
        errors := ["An error occurred during analysis: " ++ e], warnings := [],
        backend_calls := [full_prompt df q], displayed := none, download := none } := by
  cases f <;>
    simp [script_run, button_block, analyze_action, hb, hq, hkey, warnResult, idleResult]

/-- Witness for C2 at a concrete table, question, credential and raising
backend stub. -/
theorem backend_error_atomic_witness :
    ("q" : String) ≠ "" ∧ (keyTruthy (some "k") || keyTruthy none) = true ∧
    raisingStub (full_prompt sampleTable "q") = Except.error "boom" ∧
    script_run (some (Except.ok sampleTable)) (some sampleTable) "q" (some "k") none true
        raisingStub =
      { session := some sampleTable, question := "q", stopped := false,
        errors := ["An error occurred during analysis: " ++ "boom"], warnings := [],
        backend_calls := [full_prompt sampleTable "q"], displayed := none, download := none } :=
  ⟨by decide, by decide, rfl,
    backend_error_atomic (Except.ok sampleTable) sampleTable "q" (some "k") none raisingStub
      "boom" (by decide) (by decide) rfl⟩

/-- Claim C6: for a backend returning the fixed text t, the rerun renders
exactly t, and the offered download is the document with the single fixed
heading and the one body paragraph holding exactly t, under the fixed
filename and the standard docx MIME type. -/
theorem backend_success_verbatim (f : Except String Table) (df : Table) (q : String)
    (ak oak : Option String) (backend : String → Except String String) (t : String)
    (hq : q ≠ "") (hkey : (keyTruthy ak || keyTruthy oak) = true)
    (hb : backend (full_prompt df q) = Except.ok t) :
    script_run (some f) (some df) q ak oak true backend =
      { session := some df, question := q, stopped := false, errors := [], warnings := [],
        backend_calls := [full_prompt df q], displayed := some t,
        download := some
          { doc := { heading := "Social Media Data Analysis", paragraphs := [t] },
            file_name := "social_media_analysis.docx",
            mime := "application/vnd.openxmlformats-officedocument.wordprocessingml.document" } } := by
  cases f <;>
    simp [script_run, button_block, analyze_action, hb, hq, hkey, warnResult, idleResult]

/-- Witness for C6 at a concrete table, question, credential and fixed-text
backend stub. -/
theorem backend_success_verbatim_witness :
    ("q" : String) ≠ "" ∧ (keyTruthy (some "k") || keyTruthy none) = true ∧
    fixedStub "T" (full_prompt sampleTable "q") = Except.ok "T" ∧
    script_run (some (Except.ok sampleTable)) (some sampleTable) "q" (some "k") none true
        (fixedStub "T") =
      { session := some sampleTable, question := "q", stopped := false, errors := [],
        warnings := [], backend_calls := [full_prompt sampleTable "q"],
        displayed := some "T",
        download := some
          { doc := { heading := "Social Media Data Analysis", paragraphs := ["T"] },
            file_name := "social_media_analysis.docx",
            mime := "application/vnd.openxmlformats-officedocument.wordprocessingml.document" } } :=
  ⟨by decide, by decide, rfl,
    backend_success_verbatim (Except.ok sampleTable) sampleTable "q" (some "k") none
      (fixedStub "T") "T" (by decide) (by decide) rfl⟩

/-- Claim C8: when parsing of the uploaded file fails (the upload is read
because no table is in the session yet), the rerun reports the single parse
error of line 97, halts via st.stop, stores no table, composes no prompt,
calls no backend, and produces no result or download, whatever the button
or the credentials. -/
theorem parse_error_halts (e : String) (q : String) (ak oak : Option String)
    (button : Bool) (backend : String → Except String String) :
    script_run (some (Except.error e)) none q ak oak button backend =
      { session := none, question := q, stopped := true,
        errors := ["Error reading Excel file: " ++ e], warnings := [],
        backend_calls := [], displayed := none, download := none } := by
  simp [script_run, idleResult]

/-- Claim C7: a backend call is made only when an upload is present, a
table is stored, the question is non-empty and a credential is truthy, and
the one call carries the prompt composed from the stored table; whenever
one of the guard conditions fails on a pressed button (and the script was
not already stopped by a parse failure), exactly one warning is issued and
no prompt is composed and no backend call is made. -/
theorem analyze_guards (uploaded : Option (Except String Table)) (session : Option Table)
    (q : String) (ak oak : Option String) (backend : String → Except String String) :
    ((script_run uploaded session q ak oak true backend).backend_calls ≠ [] →
      (∃ df, (script_run uploaded session q ak oak true backend).session = some df ∧
        (script_run uploaded session q ak oak true backend).backend_calls =
          [full_prompt df q]) ∧
      uploaded ≠ none ∧ q ≠ "" ∧ (keyTruthy ak || keyTruthy oak) = true) ∧
    ((uploaded = none ∨ q = "" ∨ (keyTruthy ak || keyTruthy oak) = false) →
      (script_run uploaded session q ak oak true backend).stopped = false →
      (script_run uploaded session q ak oak true backend).warnings.length = 1 ∧
      (script_run uploaded session q ak oak true backend).backend_calls = []) := by
  by_cases hq : q = "" <;> by_cases hk : (keyTruthy ak || keyTruthy oak) = true <;>
    rcases uploaded with _ | (e | t) <;> rcases session with _ | df <;>
      simp [script_run, button_block, hq, hk, warnResult, idleResult,
        analyze_action_calls, analyze_action_session, analyze_action_warnings]

/-- Witness for C7: at a pressed button with no upload, the guard issues
one warning and makes no call. -/
theorem analyze_guards_witness :
    ((none : Option (Except String Table)) = none ∨ ("q" : String) = "" ∨
      (keyTruthy none || keyTruthy none) = false) ∧
    (script_run none none "q" none none true raisingStub).stopped = false ∧
    (script_run none none "q" none none true raisingStub).warnings.length = 1 ∧
    (script_run none none "q" none none true raisingStub).backend_calls = [] :=
  ⟨Or.inl rfl, by decide,
    (analyze_guards none none "q" none none raisingStub).2 (Or.inl rfl) (by decide)⟩

/-- Claim C10: the question guard of line 136 rejects exactly the empty
string: a question made only of whitespace passes the guard, no warning is
issued, and the one backend call carries the prompt with that whitespace
question appended verbatim. -/
theorem whitespace_question_accepted (f : Except String Table) (df : Table) (q : String)
    (ak oak : Option String) (backend : String → Except String String)
    (hws : ∀ c ∈ q.data, c = ' ') (hq : q ≠ "")
    (hkey : (keyTruthy ak || keyTruthy oak) = true) :
    (script_run (some f) (some df) q ak oak true backend).warnings = [] ∧
    (script_run (some f) (some df) q ak oak true backend).backend_calls =
      [full_prompt df q] ∧
    (∃ u, full_prompt df q = u ++ q) := by
  refine ⟨?_, ?_, ⟨"Social media data:\n" ++ to_markdown df ++ "\n\nUser question: ", rfl⟩⟩ <;>
    cases f <;>
      simp [script_run, button_block, hq, hkey, warnResult, idleResult,
        analyze_action_calls, analyze_action_warnings]

/-- Witness for C10 at the one-blank question. -/
theorem whitespace_question_accepted_witness :
    (∀ c ∈ (" " : String).data, c = ' ') ∧ (" " : String) ≠ "" ∧
    (keyTruthy (some "k") || keyTruthy none) = true ∧
    ((script_run (some (Except.ok sampleTable)) (some sampleTable) " " (some "k") none true
        raisingStub).warnings = [] ∧
    (script_run (some (Except.ok sampleTable)) (some sampleTable) " " (some "k") none true
        raisingStub).backend_calls = [full_prompt sampleTable " "] ∧
    (∃ u, full_prompt sampleTable " " = u ++ " ")) :=
  ⟨by decide, by decide, by decide,
    whitespace_question_accepted (Except.ok sampleTable) sampleTable " " (some "k") none
      raisingStub (by decide) (by decide) (by decide)⟩

/-- Claim C1 fails on the code: with firstTable already stored, a rerun in
which secondTable is the freshly uploaded file keeps firstTable stored
(the guard of line 93 skips the read) and the analysis prompt is built
from firstTable, differing from the prompt built from secondTable that the
claim requires. -/
theorem second_upload_keeps_first_table :
    (script_run (some (Except.ok secondTable)) (some firstTable) "q" (some "k") none true
        (fixedStub "r")).session = some firstTable ∧
    (script_run (some (Except.ok secondTable)) (some firstTable) "q" (some "k") none true
        (fixedStub "r")).backend_calls = [full_prompt firstTable "q"] ∧
    full_prompt firstTable "q" ≠ full_prompt secondTable "q" := by
  decide
